import Mathlib

/-!
Verification of the instruction-construction service in `src/handlers.rs` /
`src/types.rs`: base58/base64 codecs, address validation, and the four
instruction encoders (create-token, mint-token, transfer-native,
transfer-token), together with the response envelope.

Bytes are modelled as `Nat` values (< 256 where it matters); byte strings as
`List Nat`; the handlers are pure functions from the typed request records
(the result of JSON deserialization in `types.rs`) to `ApiResponse` values.
-/

/-! ## Base58 codec (Bitcoin alphabet, as used by the `bs58` crate) -/

/-- The base58 alphabet in order; the digit value of a character is its index. -/
def base58Alphabet : List Char :=
  ['1','2','3','4','5','6','7','8','9','A','B','C','D','E','F','G','H','J',
   'K','L','M','N','P','Q','R','S','T','U','V','W','X','Y','Z','a','b','c',
   'd','e','f','g','h','i','j','k','m','n','o','p','q','r','s','t','u','v',
   'w','x','y','z']

/-- Digit value of a base58 character, `none` for a character outside the alphabet. -/
def b58DigitVal (c : Char) : Option Nat :=
  base58Alphabet.findIdx? (fun d => d == c)

/-- Map every character of a candidate base58 string to its digit value;
fails if any character is outside the alphabet. -/
def b58Digits : List Char → Option (List Nat)
  | [] => some []
  | c :: cs =>
    match b58DigitVal c, b58Digits cs with
    | some v, some vs => some (v :: vs)
    | _, _ => none

/-- Minimal big-endian base-256 digits of `n` (empty for `n = 0`), with
explicit fuel so the definition is structural and kernel-reducible; `fuel ≥ n`
suffices since the byte count never exceeds `n`. -/
def natBytesBEAux : Nat → Nat → List Nat
  | 0, _ => []
  | _ + 1, 0 => []
  | fuel + 1, n + 1 => natBytesBEAux fuel ((n + 1) / 256) ++ [(n + 1) % 256]

/-- Minimal big-endian base-256 digits of `n`. -/
def natBytesBE (n : Nat) : List Nat := natBytesBEAux n n

/-- Base58 decoding as implemented by the `bs58` crate: every character is a
digit of one big number, and each leading `'1'` contributes one leading zero
byte.  The empty string decodes to the empty byte string. -/
def base58Decode (s : String) : Option (List Nat) :=
  match b58Digits s.toList with
  | none => none
  | some vs =>
    let n := vs.foldl (fun acc v => acc * 58 + v) 0
    let zeros := (s.toList.takeWhile (fun c => c == '1')).length
    some (List.replicate zeros 0 ++ natBytesBE n)

/-- Minimal big-endian base-58 digits of `n`, fuelled as in `natBytesBEAux`. -/
def natDigits58Aux : Nat → Nat → List Nat
  | 0, _ => []
  | _ + 1, 0 => []
  | fuel + 1, n + 1 => natDigits58Aux fuel ((n + 1) / 58) ++ [(n + 1) % 58]

/-- Minimal big-endian base-58 digits of `n`. -/
def natDigits58 (n : Nat) : List Nat := natDigits58Aux n n

/-- Base58 encoding of a byte string: one `'1'` per leading zero byte, then
the remaining bytes as one base-58 number.  This is `bs58::encode`, and also
the `Display` form of a Solana `Pubkey`. -/
def base58Encode (bs : List Nat) : String :=
  let zeros := (bs.takeWhile (fun b => b == 0)).length
  let n := bs.foldl (fun acc b => acc * 256 + b) 0
  String.mk (List.replicate zeros '1' ++ (natDigits58 n).map (fun d => base58Alphabet.getD d '1'))

/-! ## Base64 codec (standard alphabet with padding, `base64::STANDARD`) -/

/-- The standard base64 alphabet in order. -/
def base64Alphabet : List Char :=
  ['A','B','C','D','E','F','G','H','I','J','K','L','M','N','O','P','Q','R',
   'S','T','U','V','W','X','Y','Z','a','b','c','d','e','f','g','h','i','j',
   'k','l','m','n','o','p','q','r','s','t','u','v','w','x','y','z','0','1',
   '2','3','4','5','6','7','8','9','+','/']

/-- The base64 character for a 6-bit value. -/
def b64Char (n : Nat) : Char := base64Alphabet.getD n 'A'

/-- Value of a base64 alphabet character, `none` for `'='` and anything else
outside the alphabet. -/
def b64CharVal (c : Char) : Option Nat :=
  base64Alphabet.findIdx? (fun d => d == c)

/-- Base64-encode a byte string, three bytes to four characters, padding the
final partial group with `'='`. -/
def b64EncodeChunks : List Nat → List Char
  | [] => []
  | [a] => [b64Char (a / 4), b64Char (a % 4 * 16), '=', '=']
  | [a, b] => [b64Char (a / 4), b64Char (a % 4 * 16 + b / 16), b64Char (b % 16 * 4), '=']
  | a :: b :: c :: rest =>
    b64Char (a / 4) :: b64Char (a % 4 * 16 + b / 16) ::
      b64Char (b % 16 * 4 + c / 64) :: b64Char (c % 64) :: b64EncodeChunks rest

/-- `base64::engine::general_purpose::STANDARD.encode`. -/
def base64Encode (bs : List Nat) : String := String.mk (b64EncodeChunks bs)

/-- Base64-decode four characters to three bytes per group; a final padded
group must have zero trailing bits (the `STANDARD` engine rejects nonzero
trailing bits) and padding may appear only in the final group. -/
def b64DecodeChunks : List Char → Option (List Nat)
  | [] => some []
  | c1 :: c2 :: c3 :: c4 :: rest =>
    match b64CharVal c1, b64CharVal c2 with
    | some v1, some v2 =>
      if c3 == '=' then
        if c4 == '=' && rest.isEmpty && v2 % 16 == 0 then some [v1 * 4 + v2 / 16] else none
      else
        match b64CharVal c3 with
        | none => none
        | some v3 =>
          if c4 == '=' then
            if rest.isEmpty && v3 % 4 == 0 then
              some [v1 * 4 + v2 / 16, v2 % 16 * 16 + v3 / 4]
            else none
          else
            match b64CharVal c4, b64DecodeChunks rest with
            | some v4, some bs =>
              some ((v1 * 4 + v2 / 16) :: (v2 % 16 * 16 + v3 / 4) :: (v3 % 4 * 64 + v4) :: bs)
            | _, _ => none
    | _, _ => none
  | _ => none

/-- `base64::engine::general_purpose::STANDARD.decode`. -/
def base64Decode (s : String) : Option (List Nat) := b64DecodeChunks s.toList

/-! ## Little-endian integers -/

/-- The `k` little-endian base-256 digits of `n`; for `k = 8` and `n < 2^64`
this is `u64::to_le_bytes`. -/
def leBytes : Nat → Nat → List Nat
  | 0, _ => []
  | k + 1, n => n % 256 :: leBytes k (n / 256)

/-! ## Address validation -/

/-- `solana_sdk::pubkey::Pubkey::from_str`: reject strings longer than 44
bytes, base58-decode, and require exactly 32 decoded bytes.  The handlers
discard the error kind, so the model returns an `Option`. -/
def pubkeyFromStr (s : String) : Option (List Nat) :=
  if s.utf8ByteSize > 44 then none
  else
    match base58Decode s with
    | none => none
    | some bs => if bs.length = 32 then some bs else none

/-- Error kinds of the spec's Address Validator. -/
inductive AddressError where
  | invalidEncoding (field : String)
  | invalidLength
deriving DecidableEq

/-- Modelled from the spec: the repository has no standalone `parse_address`
function (the handlers inline `Pubkey::from_str` and discard the error kind);
this follows the spec's contract word for word: decode as base58, failing with
`InvalidEncoding("<field> public key")` on decode failure, then require the
decoded byte length to be exactly 32, failing with `InvalidLength` otherwise. -/
def parse_address (field : String) (s : String) : Except AddressError (List Nat) :=
  match base58Decode s with
  | none => Except.error (AddressError.invalidEncoding (field ++ " public key"))
  | some bs =>
    if bs.length = 32 then Except.ok bs else Except.error AddressError.invalidLength

/-! ## Response and request types (`types.rs`) -/

/-- `ApiResponse<T>`: `success` flag plus optional `data` and `error`. -/
structure ApiResponse (T : Type) where
  success : Bool
  data : Option T
  error : Option String
deriving DecidableEq

/-- `ApiResponse::success`. -/
def ApiResponse.mkSuccess {T : Type} (d : T) : ApiResponse T :=
  { success := true, data := some d, error := none }

/-- `ApiResponse::error`. -/
def ApiResponse.mkError {T : Type} (e : String) : ApiResponse T :=
  { success := false, data := none, error := some e }

/-- `AccountMeta` as serialized in instruction responses. -/
structure AccountMeta where
  pubkey : String
  is_signer : Bool
  is_writable : Bool
deriving DecidableEq

/-- `InstructionResponse`. -/
structure InstructionResponse where
  program_id : String
  accounts : List AccountMeta
  instruction_data : String
deriving DecidableEq

structure CreateTokenRequest where
  mint_authority : String
  mint : String
  decimals : Nat
deriving DecidableEq

structure MintTokenRequest where
  mint : String
  destination : String
  authority : String
  amount : Nat
deriving DecidableEq

structure VerifyMessageRequest where
  message : String
  signature : String
  pubkey : String
deriving DecidableEq

structure VerifyMessageResponse where
  valid : Bool
  message : String
  pubkey : String
deriving DecidableEq

structure SendSolRequest where
  «from» : String
  «to» : String
  lamports : Nat
deriving DecidableEq

structure SendTokenRequest where
  destination : String
  mint : String
  owner : String
  amount : Nat
deriving DecidableEq

/-! ## Handlers (`handlers.rs`) -/

def SPL_TOKEN_PROGRAM_ID : String := "TokenkegQfeZyiNwAJbNbGKPFXCWuBvf9Ss623VQ5DA"

def SYSTEM_PROGRAM_ID : String := "11111111111111111111111111111111"

/-- `create_token`: validate `mintAuthority` then `mint`, then build the
InitializeMint descriptor. -/
def create_token (req : CreateTokenRequest) : ApiResponse InstructionResponse :=
  match pubkeyFromStr req.mint_authority with
  | none => ApiResponse.mkError "Invalid mint authority public key"
  | some _ =>
    match pubkeyFromStr req.mint with
    | none => ApiResponse.mkError "Invalid mint public key"
    | some mint =>
      ApiResponse.mkSuccess
        { program_id := SPL_TOKEN_PROGRAM_ID
          accounts :=
            [ { pubkey := base58Encode mint, is_signer := false, is_writable := true },
              { pubkey := "SysvarRent111111111111111111111111111111111",
                is_signer := false, is_writable := false } ]
          instruction_data := base64Encode [0, req.decimals] }

/-- `mint_token`: validate `mint`, then `destination`, then `authority`, then
build the MintTo descriptor (no check on `amount`). -/
def mint_token (req : MintTokenRequest) : ApiResponse InstructionResponse :=
  match pubkeyFromStr req.mint with
  | none => ApiResponse.mkError "Invalid mint public key"
  | some mint =>
    match pubkeyFromStr req.destination with
    | none => ApiResponse.mkError "Invalid destination public key"
    | some destination =>
      match pubkeyFromStr req.authority with
      | none => ApiResponse.mkError "Invalid authority public key"
      | some authority =>
        ApiResponse.mkSuccess
          { program_id := SPL_TOKEN_PROGRAM_ID
            accounts :=
              [ { pubkey := base58Encode destination, is_signer := false, is_writable := true },
                { pubkey := base58Encode mint, is_signer := false, is_writable := true },
                { pubkey := base58Encode authority, is_signer := true, is_writable := false } ]
            instruction_data := base64Encode (7 :: leBytes 8 req.amount) }

/-- UTF-8 bytes of a string, as `str::as_bytes`. -/
def strBytes (s : String) : List Nat := s.toUTF8.toList.map (fun b => b.toNat)

/-- `verify_message`, parameterized over the two external ed25519 primitives:
`isValidPoint` models `VerifyingKey::from_bytes` succeeding on a 32-byte
array, and `edVerify` models `VerifyingKey::verify(..).is_ok()`.  The handler
base58-decodes the pubkey, checks its length, parses the curve point,
base64-decodes the signature, checks its length, and only then verifies. -/
def verify_message (isValidPoint : List Nat → Bool)
    (edVerify : List Nat → List Nat → List Nat → Bool)
    (req : VerifyMessageRequest) : ApiResponse VerifyMessageResponse :=
  match base58Decode req.pubkey with
  | none => ApiResponse.mkError "Invalid public key format"
  | some pkb =>
    if pkb.length ≠ 32 then ApiResponse.mkError "Invalid public key length"
    else if ¬ isValidPoint pkb then ApiResponse.mkError "Invalid public key"
    else
      match base64Decode req.signature with
      | none => ApiResponse.mkError "Invalid signature format"
      | some sigb =>
        if sigb.length ≠ 64 then ApiResponse.mkError "Invalid signature length"
        else
          ApiResponse.mkSuccess
            { valid := edVerify pkb (strBytes req.message) sigb
              message := req.message
              pubkey := req.pubkey }

/-- `send_sol`: validate `from`, then `to`, then require `lamports ≠ 0`, then
build the System-program transfer descriptor. -/
def send_sol (req : SendSolRequest) : ApiResponse InstructionResponse :=
  match pubkeyFromStr req.«from» with
  | none => ApiResponse.mkError "Invalid sender public key"
  | some from_pk =>
    match pubkeyFromStr req.«to» with
    | none => ApiResponse.mkError "Invalid recipient public key"
    | some to_pk =>
      if req.lamports = 0 then ApiResponse.mkError "Amount must be greater than 0"
      else
        ApiResponse.mkSuccess
          { program_id := SYSTEM_PROGRAM_ID
            accounts :=
              [ { pubkey := base58Encode from_pk, is_signer := true, is_writable := true },
                { pubkey := base58Encode to_pk, is_signer := false, is_writable := true } ]
            instruction_data := base64Encode ([2, 0, 0, 0] ++ leBytes 8 req.lamports) }

/-- `send_token`: validate `destination`, then `mint` (whose value is then
discarded), then `owner`, then require `amount ≠ 0`; the source token account
is the placeholder `format!("{}Source", owner)`. -/
def send_token (req : SendTokenRequest) : ApiResponse InstructionResponse :=
  match pubkeyFromStr req.destination with
  | none => ApiResponse.mkError "Invalid destination public key"
  | some destination =>
    match pubkeyFromStr req.mint with
    | none => ApiResponse.mkError "Invalid mint public key"
    | some _ =>
      match pubkeyFromStr req.owner with
      | none => ApiResponse.mkError "Invalid owner public key"
      | some owner =>
        if req.amount = 0 then ApiResponse.mkError "Amount must be greater than 0"
        else
          ApiResponse.mkSuccess
            { program_id := SPL_TOKEN_PROGRAM_ID
              accounts :=
                [ { pubkey := base58Encode owner ++ "Source",
                    is_signer := false, is_writable := true },
                  { pubkey := base58Encode destination, is_signer := false, is_writable := true },
                  { pubkey := base58Encode owner, is_signer := true, is_writable := false } ]
              instruction_data := base64Encode (3 :: leBytes 8 req.amount) }

/-! ## Sanity examples on concrete inputs -/

example : base58Decode "" = some [] := by decide
example : base58Decode "2" = some [1] := by decide
example : base58Decode "11" = some [0, 0] := by decide
example : b58DigitVal '0' = none := rfl
example : pubkeyFromStr "11111111111111111111111111111111" = some (List.replicate 32 0) := by
  decide
example : base64Encode [0, 9] = "AAk=" := by decide
example : base64Decode "AAk=" = some [0, 9] := by decide
example : leBytes 8 1000000 = [64, 66, 15, 0, 0, 0, 0, 0] := by decide

example : pubkeyFromStr "11111111111111111111111111111112" =
    some (List.replicate 31 0 ++ [1]) := by decide
example : pubkeyFromStr "0" = none := by decide

/-! ## C1: validation order in `mint_token` -/

/-- C1 (counterexample): the claim says `mint_token` validates the destination
first, so that a request whose destination and mint are both invalid base58
strings reports "Invalid destination public key"; in fact the code validates
the mint first and reports "Invalid mint public key" on such a request. -/
theorem mint_token_both_invalid_counterexample :
    pubkeyFromStr "0" = none ∧
    mint_token { mint := "0", destination := "0",
                 authority := "11111111111111111111111111111111", amount := 1 } =
      ApiResponse.mkError "Invalid mint public key" ∧
    mint_token { mint := "0", destination := "0",
                 authority := "11111111111111111111111111111111", amount := 1 } ≠
      ApiResponse.mkError "Invalid destination public key" := by
  decide

/-- C1 (amended): `mint_token` validates its address fields in source order
`mint`, then `destination`, then `authority`; the first failing check
short-circuits the rest, so when both the destination and the mint are
invalid, the error names the mint. -/
theorem mint_token_validation_order (req : MintTokenRequest) :
    (pubkeyFromStr req.mint = none →
      mint_token req = ApiResponse.mkError "Invalid mint public key") ∧
    (pubkeyFromStr req.mint ≠ none → pubkeyFromStr req.destination = none →
      mint_token req = ApiResponse.mkError "Invalid destination public key") ∧
    (pubkeyFromStr req.mint ≠ none → pubkeyFromStr req.destination ≠ none →
      pubkeyFromStr req.authority = none →
      mint_token req = ApiResponse.mkError "Invalid authority public key") := by
  unfold mint_token
  rcases h1 : pubkeyFromStr req.mint with _ | m <;>
    rcases h2 : pubkeyFromStr req.destination with _ | d <;>
      rcases h3 : pubkeyFromStr req.authority with _ | a <;> simp

/-- C1 (witness): the amended ordering at concrete inputs — an invalid mint
wins over anything else, and with a valid mint an invalid destination is
reported next. -/
theorem mint_token_validation_order_witness :
    mint_token { mint := "0", destination := "11111111111111111111111111111112",
                 authority := "11111111111111111111111111111113", amount := 5 } =
      ApiResponse.mkError "Invalid mint public key" ∧
    mint_token { mint := "11111111111111111111111111111112", destination := "0",
                 authority := "0", amount := 5 } =
      ApiResponse.mkError "Invalid destination public key" :=
  ⟨(mint_token_validation_order _).1 (by decide),
   (mint_token_validation_order _).2.1 (by decide) (by decide)⟩

/-! ## C2: error kinds of the Address Validator -/

/-- C2 (counterexample): the claim offers the empty string as an example of a
string that is not valid base58 and so fails with the format error; in fact
the empty string IS valid base58 (it decodes to zero bytes), and
`parse_address` rejects it with the length error, not the encoding error. -/
theorem parse_address_empty_counterexample :
    base58Decode "" = some [] ∧
    parse_address "destination" "" = Except.error AddressError.invalidLength ∧
    parse_address "destination" "" ≠
      Except.error (AddressError.invalidEncoding "destination public key") := by
  refine ⟨rfl, rfl, ?_⟩
  intro h
  simp [parse_address, base58Decode, b58Digits, natBytesBE, natBytesBEAux] at h

/-- C2 (amended): `parse_address` fails with the `InvalidEncoding` format
error exactly on strings that are not valid base58, and with the distinct
`InvalidLength` error on valid base58 strings (the empty string among them)
whose decoded length is not 32 bytes; the two error kinds are distinguishable. -/
theorem parse_address_error_kinds (field s : String) :
    (base58Decode s = none →
      parse_address field s =
        Except.error (AddressError.invalidEncoding (field ++ " public key"))) ∧
    (∀ bs, base58Decode s = some bs → bs.length ≠ 32 →
      parse_address field s = Except.error AddressError.invalidLength) ∧
    AddressError.invalidEncoding (field ++ " public key") ≠ AddressError.invalidLength := by
  refine ⟨?_, ?_, by simp⟩
  · intro h; unfold parse_address; rw [h]
  · intro bs h hlen; unfold parse_address; rw [h]; simp [hlen]

/-- C2 (witness): a character outside the alphabet gives the encoding error;
a 31-byte base58 string (31 ones decode to 31 zero bytes) gives the length
error. -/
theorem parse_address_error_kinds_witness :
    parse_address "destination" "0" =
      Except.error (AddressError.invalidEncoding "destination public key") ∧
    parse_address "destination" "1111111111111111111111111111111" =
      Except.error AddressError.invalidLength :=
  ⟨(parse_address_error_kinds "destination" "0").1 (by decide),
   (parse_address_error_kinds "destination" "1111111111111111111111111111111").2.1
     (List.replicate 31 0) (by decide) (by decide)⟩

/-! ## C3: send-sol instruction data layout -/

/-- C3: for every send-sol request with valid from/to addresses and positive
lamports, the descriptor's program id is the System program constant and its
instruction data is the base64 encoding of the u32-LE discriminator `2`
followed by the lamports as u64 LE; at lamports = 1_000_000 that data decodes
from base64 to exactly the 12 bytes `[2,0,0,0, 0x40,0x42,0x0F,0,0,0,0,0]`. -/
theorem send_sol_data_layout (req : SendSolRequest) (f t : List Nat)
    (hf : pubkeyFromStr req.«from» = some f) (ht : pubkeyFromStr req.«to» = some t)
    (hl : 0 < req.lamports) :
    send_sol req = ApiResponse.mkSuccess
      { program_id := SYSTEM_PROGRAM_ID
        accounts :=
          [ { pubkey := base58Encode f, is_signer := true, is_writable := true },
            { pubkey := base58Encode t, is_signer := false, is_writable := true } ]
        instruction_data := base64Encode ([2, 0, 0, 0] ++ leBytes 8 req.lamports) } ∧
    (req.lamports = 1000000 →
      base64Decode (base64Encode ([2, 0, 0, 0] ++ leBytes 8 req.lamports)) =
        some [2, 0, 0, 0, 64, 66, 15, 0, 0, 0, 0, 0]) := by
  constructor
  · unfold send_sol
    rw [hf, ht]
    simp [Nat.pos_iff_ne_zero.mp hl]
  · intro h
    rw [h]
    decide

/-- C3 (witness): concrete valid request at lamports = 1_000_000. -/
theorem send_sol_data_layout_witness :
    send_sol { «from» := "11111111111111111111111111111112",
               «to» := "11111111111111111111111111111113", lamports := 1000000 } =
      ApiResponse.mkSuccess
        { program_id := SYSTEM_PROGRAM_ID
          accounts :=
            [ { pubkey := base58Encode (List.replicate 31 0 ++ [1]),
                is_signer := true, is_writable := true },
              { pubkey := base58Encode (List.replicate 31 0 ++ [2]),
                is_signer := false, is_writable := true } ]
          instruction_data := base64Encode ([2, 0, 0, 0] ++ leBytes 8 1000000) } ∧
    base64Decode (base64Encode ([2, 0, 0, 0] ++ leBytes 8 1000000)) =
      some [2, 0, 0, 0, 64, 66, 15, 0, 0, 0, 0, 0] :=
  ⟨(send_sol_data_layout _ (List.replicate 31 0 ++ [1]) (List.replicate 31 0 ++ [2])
      (by decide) (by decide) (by decide)).1,
   (send_sol_data_layout
      { «from» := "11111111111111111111111111111112",
        «to» := "11111111111111111111111111111113", lamports := 1000000 }
      (List.replicate 31 0 ++ [1]) (List.replicate 31 0 ++ [2])
      (by decide) (by decide) (by decide)).2 rfl⟩

/-! ## C4: create-token instruction layout at decimals = 9 -/

/-- C4: for every create-token request with valid mintAuthority and mint and
decimals = 9, the descriptor carries the SPL-Token program id, the account
list [mint: not-signer/writable, rent sysvar: not-signer/not-writable], and
instruction data that is the base64 encoding of exactly the bytes [0, 9]. -/
theorem create_token_decimals9 (req : CreateTokenRequest) (m : List Nat)
    (ha : pubkeyFromStr req.mint_authority ≠ none)
    (hm : pubkeyFromStr req.mint = some m)
    (hd : req.decimals = 9) :
    create_token req = ApiResponse.mkSuccess
      { program_id := SPL_TOKEN_PROGRAM_ID
        accounts :=
          [ { pubkey := base58Encode m, is_signer := false, is_writable := true },
            { pubkey := "SysvarRent111111111111111111111111111111111",
              is_signer := false, is_writable := false } ]
        instruction_data := base64Encode [0, 9] } ∧
    base64Encode [0, 9] = "AAk=" ∧
    base64Decode (base64Encode [0, 9]) = some [0, 9] := by
  refine ⟨?_, by decide, by decide⟩
  unfold create_token
  rcases h1 : pubkeyFromStr req.mint_authority with _ | au
  · exact absurd h1 ha
  · rw [hm, hd]

/-- C4 (witness): concrete valid request with decimals = 9. -/
theorem create_token_decimals9_witness :
    create_token { mint_authority := "11111111111111111111111111111112",
                   mint := "11111111111111111111111111111113", decimals := 9 } =
      ApiResponse.mkSuccess
        { program_id := SPL_TOKEN_PROGRAM_ID
          accounts :=
            [ { pubkey := base58Encode (List.replicate 31 0 ++ [2]),
                is_signer := false, is_writable := true },
              { pubkey := "SysvarRent111111111111111111111111111111111",
                is_signer := false, is_writable := false } ]
          instruction_data := base64Encode [0, 9] } :=
  (create_token_decimals9 _ (List.replicate 31 0 ++ [2])
    (by decide) (by decide) (by decide)).1

/-! ## C5: mint-token account list order -/

/-- C5: for every valid mint-token request the account list is exactly, in
order, destination (not-signer, writable), mint (not-signer, writable),
authority (signer, not-writable); the typed request record carries no JSON
field order, so the output is independent of it by construction. -/
theorem mint_token_account_order (req : MintTokenRequest) (m d a : List Nat)
    (hm : pubkeyFromStr req.mint = some m)
    (hd : pubkeyFromStr req.destination = some d)
    (ha : pubkeyFromStr req.authority = some a) :
    mint_token req = ApiResponse.mkSuccess
      { program_id := SPL_TOKEN_PROGRAM_ID
        accounts :=
          [ { pubkey := base58Encode d, is_signer := false, is_writable := true },
            { pubkey := base58Encode m, is_signer := false, is_writable := true },
            { pubkey := base58Encode a, is_signer := true, is_writable := false } ]
        instruction_data := base64Encode (7 :: leBytes 8 req.amount) } := by
  unfold mint_token
  rw [hm, hd, ha]

/-- C5 (witness): concrete valid request. -/
theorem mint_token_account_order_witness :
    mint_token { mint := "11111111111111111111111111111112",
                 destination := "11111111111111111111111111111113",
                 authority := "11111111111111111111111111111114", amount := 5 } =
      ApiResponse.mkSuccess
        { program_id := SPL_TOKEN_PROGRAM_ID
          accounts :=
            [ { pubkey := base58Encode (List.replicate 31 0 ++ [2]),
                is_signer := false, is_writable := true },
              { pubkey := base58Encode (List.replicate 31 0 ++ [1]),
                is_signer := false, is_writable := true },
              { pubkey := base58Encode (List.replicate 31 0 ++ [3]),
                is_signer := true, is_writable := false } ]
          instruction_data := base64Encode (7 :: leBytes 8 5) } :=
  mint_token_account_order _ (List.replicate 31 0 ++ [1]) (List.replicate 31 0 ++ [2])
    (List.replicate 31 0 ++ [3]) (by decide) (by decide) (by decide)

/-! ## C6: send-sol rejects zero lamports -/

/-- C6: for every send-sol request with valid from/to addresses and
lamports = 0, the handler returns the error envelope with exactly the message
"Amount must be greater than 0": success is false and no descriptor is
returned. -/
theorem send_sol_zero_lamports (req : SendSolRequest)
    (hf : pubkeyFromStr req.«from» ≠ none) (ht : pubkeyFromStr req.«to» ≠ none)
    (h0 : req.lamports = 0) :
    send_sol req = ApiResponse.mkError "Amount must be greater than 0" ∧
    (send_sol req).success = false ∧
    (send_sol req).data = none ∧
    (send_sol req).error = some "Amount must be greater than 0" := by
  have h : send_sol req = ApiResponse.mkError "Amount must be greater than 0" := by
    unfold send_sol
    rcases h1 : pubkeyFromStr req.«from» with _ | f
    · exact absurd h1 hf
    · rcases h2 : pubkeyFromStr req.«to» with _ | t
      · exact absurd h2 ht
      · simp [h0]
  exact ⟨h, by rw [h]; rfl, by rw [h]; rfl, by rw [h]; rfl⟩

/-- C6 (witness): concrete valid addresses with lamports = 0. -/
theorem send_sol_zero_lamports_witness :
    send_sol { «from» := "11111111111111111111111111111112",
               «to» := "11111111111111111111111111111113", lamports := 0 } =
      ApiResponse.mkError "Amount must be greater than 0" :=
  (send_sol_zero_lamports _ (by decide) (by decide) (by decide)).1

/-! ## C7: verify never errors on well-formed inputs -/

/-- C7: for every verify request whose pubkey base58-decodes to 32 bytes
forming a valid curve point and whose signature base64-decodes to exactly 64
bytes, the handler returns a success envelope whose `valid` field is exactly
the ed25519 verification result — for every verification outcome, including
a cryptographically invalid signature (`valid = false`), no error envelope is
produced; the statement is universally quantified over the external ed25519
primitives `isValidPoint` and `edVerify`. -/
theorem verify_message_wellformed_success
    (isValidPoint : List Nat → Bool) (edVerify : List Nat → List Nat → List Nat → Bool)
    (req : VerifyMessageRequest) (pkb sigb : List Nat)
    (hp : base58Decode req.pubkey = some pkb) (hplen : pkb.length = 32)
    (hpoint : isValidPoint pkb = true)
    (hs : base64Decode req.signature = some sigb) (hslen : sigb.length = 64) :
    verify_message isValidPoint edVerify req = ApiResponse.mkSuccess
      { valid := edVerify pkb (strBytes req.message) sigb
        message := req.message
        pubkey := req.pubkey } ∧
    (verify_message isValidPoint edVerify req).success = true ∧
    (verify_message isValidPoint edVerify req).error = none := by
  have h : verify_message isValidPoint edVerify req = ApiResponse.mkSuccess
      { valid := edVerify pkb (strBytes req.message) sigb
        message := req.message
        pubkey := req.pubkey } := by
    unfold verify_message
    rw [hp, hs]
    simp [hplen, hpoint, hslen]
  exact ⟨h, by rw [h]; rfl, by rw [h]; rfl⟩

/-- C7 (witness): an all-zero 32-byte pubkey (32 ones in base58), a 64-zero-byte
signature, and a constantly-false verifier: the handler still answers with a
success envelope carrying `valid = false`. -/
theorem verify_message_wellformed_success_witness :
    verify_message (fun _ => true) (fun _ _ _ => false)
      { message := "hello"
        signature := "AAAAAAAAAAAAAAAAAAAAAAAAAAAAAAAAAAAAAAAAAAAAAAAAAAAAAAAAAAAAAAAAAAAAAAAAAAAAAAAAAAAAAA=="
        pubkey := "11111111111111111111111111111111" } =
      ApiResponse.mkSuccess
        { valid := false, message := "hello",
          pubkey := "11111111111111111111111111111111" } :=
  (verify_message_wellformed_success (fun _ => true) (fun _ _ _ => false) _
    (List.replicate 32 0) (List.replicate 64 0)
    (by decide) (by decide) rfl (by decide) (by decide)).1

/-! ## C8: send-token source account derivation and layout -/

/-- C8: for every valid send-token request, the first account is the
placeholder source token account — the owner's base58 text with the fixed
suffix "Source" appended — flagged not-signer/writable, followed by the
destination (not-signer/writable) and the owner (signer/not-writable); the
instruction data is discriminator byte 3 followed by the amount as u64 LE. -/
theorem send_token_source_account (req : SendTokenRequest) (d m o : List Nat)
    (hd : pubkeyFromStr req.destination = some d)
    (hm : pubkeyFromStr req.mint = some m)
    (ho : pubkeyFromStr req.owner = some o)
    (hamt : 0 < req.amount) :
    send_token req = ApiResponse.mkSuccess
      { program_id := SPL_TOKEN_PROGRAM_ID
        accounts :=
          [ { pubkey := base58Encode o ++ "Source", is_signer := false, is_writable := true },
            { pubkey := base58Encode d, is_signer := false, is_writable := true },
            { pubkey := base58Encode o, is_signer := true, is_writable := false } ]
        instruction_data := base64Encode (3 :: leBytes 8 req.amount) } := by
  unfold send_token
  rw [hd, hm, ho]
  simp [Nat.pos_iff_ne_zero.mp hamt]

/-- C8 (witness): concrete valid request; the source token account is the
owner's base58 text (32 ones) with "Source" appended. -/
theorem send_token_source_account_witness :
    send_token { destination := "11111111111111111111111111111112",
                 mint := "11111111111111111111111111111113",
                 owner := "11111111111111111111111111111111", amount := 42 } =
      ApiResponse.mkSuccess
        { program_id := SPL_TOKEN_PROGRAM_ID
          accounts :=
            [ { pubkey := base58Encode (List.replicate 32 0) ++ "Source",
                is_signer := false, is_writable := true },
              { pubkey := base58Encode (List.replicate 31 0 ++ [1]),
                is_signer := false, is_writable := true },
              { pubkey := base58Encode (List.replicate 32 0),
                is_signer := true, is_writable := false } ]
          instruction_data := base64Encode (3 :: leBytes 8 42) } :=
  send_token_source_account _ (List.replicate 31 0 ++ [1]) (List.replicate 31 0 ++ [2])
    (List.replicate 32 0) (by decide) (by decide) (by decide) (by decide)

/-! ## C9: mint-token accepts a zero amount -/

/-- C9: `mint_token` performs no nonzero check on its amount: a valid request
with amount = 0 yields a success envelope whose instruction data is the base64
encoding of the nine bytes [7,0,0,0,0,0,0,0,0] — unlike `send_sol` and
`send_token`, which reject a zero amount with "Amount must be greater than 0". -/
theorem mint_token_zero_amount (req : MintTokenRequest) (m d a : List Nat)
    (hm : pubkeyFromStr req.mint = some m)
    (hd : pubkeyFromStr req.destination = some d)
    (ha : pubkeyFromStr req.authority = some a)
    (h0 : req.amount = 0) :
    (mint_token req).success = true ∧
    (∃ r, mint_token req = ApiResponse.mkSuccess r ∧
      r.instruction_data = base64Encode [7, 0, 0, 0, 0, 0, 0, 0, 0] ∧
      base64Decode r.instruction_data = some [7, 0, 0, 0, 0, 0, 0, 0, 0]) ∧
    (∀ sreq : SendSolRequest, pubkeyFromStr sreq.«from» ≠ none →
      pubkeyFromStr sreq.«to» ≠ none → sreq.lamports = 0 →
      send_sol sreq = ApiResponse.mkError "Amount must be greater than 0") ∧
    (∀ treq : SendTokenRequest, pubkeyFromStr treq.destination ≠ none →
      pubkeyFromStr treq.mint ≠ none → pubkeyFromStr treq.owner ≠ none →
      treq.amount = 0 →
      send_token treq = ApiResponse.mkError "Amount must be greater than 0") := by
  have hmt : mint_token req = ApiResponse.mkSuccess
      { program_id := SPL_TOKEN_PROGRAM_ID
        accounts :=
          [ { pubkey := base58Encode d, is_signer := false, is_writable := true },
            { pubkey := base58Encode m, is_signer := false, is_writable := true },
            { pubkey := base58Encode a, is_signer := true, is_writable := false } ]
        instruction_data := base64Encode (7 :: leBytes 8 req.amount) } := by
    unfold mint_token
    rw [hm, hd, ha]
  refine ⟨by rw [hmt]; rfl,
    ⟨_, hmt, by rw [h0]; rfl,
     by
       rw [h0]
       show base64Decode (base64Encode (7 :: leBytes 8 0)) = some [7, 0, 0, 0, 0, 0, 0, 0, 0]
       decide⟩, ?_, ?_⟩
  · intro sreq hf ht hl
    unfold send_sol
    rcases h1 : pubkeyFromStr sreq.«from» with _ | f
    · exact absurd h1 hf
    · rcases h2 : pubkeyFromStr sreq.«to» with _ | t
      · exact absurd h2 ht
      · simp [hl]
  · intro treq hdt hmt2 how hz
    unfold send_token
    rcases h1 : pubkeyFromStr treq.destination with _ | dd
    · exact absurd h1 hdt
    · rcases h2 : pubkeyFromStr treq.mint with _ | mm
      · exact absurd h2 hmt2
      · rcases h3 : pubkeyFromStr treq.owner with _ | oo
        · exact absurd h3 how
        · simp [hz]

/-- C9 (witness): a valid mint-token request with amount = 0 succeeds, while
send-sol and send-token with amount 0 are rejected. -/
theorem mint_token_zero_amount_witness :
    (mint_token { mint := "11111111111111111111111111111112",
                  destination := "11111111111111111111111111111113",
                  authority := "11111111111111111111111111111114",
                  amount := 0 }).success = true ∧
    send_token { destination := "11111111111111111111111111111112",
                 mint := "11111111111111111111111111111113",
                 owner := "11111111111111111111111111111114", amount := 0 } =
      ApiResponse.mkError "Amount must be greater than 0" :=
  ⟨(mint_token_zero_amount _ (List.replicate 31 0 ++ [1]) (List.replicate 31 0 ++ [2])
      (List.replicate 31 0 ++ [3]) (by decide) (by decide) (by decide) (by decide)).1,
   (mint_token_zero_amount
      { mint := "11111111111111111111111111111112",
        destination := "11111111111111111111111111111113",
        authority := "11111111111111111111111111111114", amount := 0 }
      (List.replicate 31 0 ++ [1]) (List.replicate 31 0 ++ [2])
      (List.replicate 31 0 ++ [3]) (by decide) (by decide) (by decide)
      (by decide)).2.2.2 _ (by decide) (by decide) (by decide) rfl⟩

/-! ## C10: send-token ignores the mint beyond validating it -/

/-- C10: two send-token requests that agree on destination, owner and amount
and differ only in their (valid) mint values produce identical responses —
the mint appears in neither the program id, the account list, nor the
instruction data. -/
theorem send_token_ignores_mint (r1 r2 : SendTokenRequest)
    (hdest : r1.destination = r2.destination) (howner : r1.owner = r2.owner)
    (hamt : r1.amount = r2.amount)
    (hm1 : pubkeyFromStr r1.mint ≠ none) (hm2 : pubkeyFromStr r2.mint ≠ none) :
    send_token r1 = send_token r2 := by
  unfold send_token
  rw [hdest, howner, hamt]
  cases pubkeyFromStr r2.destination with
  | none => rfl
  | some d =>
    rcases h1 : pubkeyFromStr r1.mint with _ | m1
    · exact absurd h1 hm1
    · rcases h2 : pubkeyFromStr r2.mint with _ | m2
      · exact absurd h2 hm2
      · rfl

/-- C10 (witness): two concrete requests differing only in their mint
addresses give the same response. -/
theorem send_token_ignores_mint_witness :
    send_token { destination := "11111111111111111111111111111112",
                 mint := "11111111111111111111111111111113",
                 owner := "11111111111111111111111111111114", amount := 42 } =
    send_token { destination := "11111111111111111111111111111112",
                 mint := "11111111111111111111111111111111",
                 owner := "11111111111111111111111111111114", amount := 42 } :=
  send_token_ignores_mint _ _ rfl rfl rfl (by decide) (by decide)
